import Mathlib

/-!
Verification of the dex-pool-scanner price-tracking core.

The definitions below are a shallow embedding of the Rust sources:
  - `src/liquidity_pools/mod.rs`: the two pool codecs (`UniswapV2`,
    `UniswapV3`), their event decoding and price derivation;
  - `src/rpc/mod.rs`: the per-record processing (`handle_log_event`) and
    the price cache.

Modelling conventions:
  - `alloy` `Address` and `B256` values are modelled as `Nat` (their
    big-endian numeric value); `U256` values as `Nat`.
  - Rust `f64` price arithmetic is modelled exactly over `ℚ`; the spec's
    "within floating-point tolerance" licenses this idealisation.  The one
    place where IEEE non-finiteness matters (division by zero in
    `handle_log_event`) is modelled explicitly via `Option ℚ`, with `none`
    standing for a non-finite double.
  - `&mut self` methods are modelled as functions returning the updated
    state alongside the result; the returned state reflects exactly the
    field assignments the Rust code performs on each path.
  - `eyre` error values are modelled by small inductives whose
    constructors correspond one-to-one to the distinct error messages.
-/

/-- keccak256 of the Uniswap V3 `Swap(address,address,int256,int256,uint160,uint128,int24)`
event signature, as returned by `UniswapV3::get_event_signatures`. -/
def swapTopicV3 : Nat :=
  0xc42079f94a6350d7e6235f29174924f928cc2ac818eb64fed8004e115fbcca67

/-- keccak256 of the Uniswap V2 `Swap(address,uint256,uint256,uint256,uint256,address)`
event signature (`swap_topic` in `UniswapV2::parse_swap_event_data`). -/
def swapTopicV2 : Nat :=
  0xd78ad95fa46c994b6551d0da85fc275fe613ce37657fb8d5e3d130840159d822

/-- keccak256 of the Uniswap V2 `Sync(uint112,uint112)` event signature
(`sync_topic` in `UniswapV2::parse_swap_event_data`). -/
def syncTopicV2 : Nat :=
  0x1c411e9a96e071241c2f21f7726b17ae89e3cab4c78be50438f83b4a47a005e0

/-- `EthereumLog`: emitting address, ordered 32-byte topics, raw data payload
(`data` is the list of payload bytes). -/
structure EthereumLog where
  address : Nat
  topics : List Nat
  data : List Nat
  deriving DecidableEq

/-- `U256::from_be_slice(&data[start..start+len])`: big-endian interpretation of a
byte slice.  (In the Rust code every such slice is guarded by a length check,
so the slice is always fully in bounds.) -/
def beSlice (data : List Nat) (start len : Nat) : Nat :=
  ((data.drop start).take len).foldl (fun acc b => acc * 256 + b) 0

/-- `Address::from_slice(&topic[12..])`: the low 20 bytes of a 32-byte topic,
i.e. its value modulo `2^160`. -/
def addrOfTopic (t : Nat) : Nat := t % 2 ^ 160

/-- `SwapEventData` from `src/liquidity_pools/mod.rs` (amounts are raw `U256`
values; `price` is the `f64` price, modelled as `ℚ`). -/
structure SwapEventData where
  amount0 : Nat
  amount1 : Nat
  price : ℚ
  sender : Nat
  recipient : Nat
  deriving DecidableEq

/-- Decode failures of `parse_swap_event_data`.  Constructors correspond to the
distinct `eyre` messages: `malformedLog` to the two "log data too short"
messages, `unknownEvent` to "Not a recognized UniswapV2 event", `noTopics`
to "Log has no topics". -/
inductive DecodeError where
  | malformedLog
  | unknownEvent
  | noTopics
  deriving DecidableEq

/-- `10f64.powi(token0_decimals as i32 - token1_decimals as i32)`. -/
def decimalAdjustment (d0 d1 : Nat) : ℚ :=
  (10 : ℚ) ^ ((d0 : ℤ) - (d1 : ℤ))

/-- The `UniswapV3` pool codec state. -/
structure UniswapV3 where
  address : Nat
  token0_decimals : Nat
  token1_decimals : Nat
  sqrt_price_x96 : Nat
  deriving DecidableEq

/-- `UniswapV3::new`. -/
def UniswapV3.new (address token0_decimals token1_decimals : Nat) : UniswapV3 :=
  { address, token0_decimals, token1_decimals, sqrt_price_x96 := 0 }

/-- `q96 = U256::from(2).pow(U256::from(96))` in `UniswapV3::calculate_price`. -/
def q96 : Nat := 2 ^ 96

/-- `UniswapV3::calculate_price`: `(sqrt_price_x96 / 2^96)` squared, scaled by
the decimal adjustment.  The Rust code converts through `f64`; here the
arithmetic is exact over `ℚ`. -/
def UniswapV3.calculate_price (p : UniswapV3) (sqrt_price_x96 : Nat) : ℚ :=
  let sqrt_price_f : ℚ := (sqrt_price_x96 : ℚ) / (q96 : ℚ)
  let price := sqrt_price_f * sqrt_price_f
  price * decimalAdjustment p.token0_decimals p.token1_decimals

/-- `UniswapV3::parse_swap_event_data`.  Note: the Rust implementation checks
only the payload length, never the topic hash; the state assignment
`self.sqrt_price_x96 = ...` happens after the length check, so the error
path returns the input state unchanged. -/
def UniswapV3.parse_swap_event_data (p : UniswapV3) (log : EthereumLog) :
    Except DecodeError SwapEventData × UniswapV3 :=
  if log.data.length < 160 then
    (.error .malformedLog, p)
  else
    let sqrt_price_x96 := beSlice log.data 64 32
    let p' := { p with sqrt_price_x96 := sqrt_price_x96 }
    let price := p'.calculate_price sqrt_price_x96
    let amount0 := beSlice log.data 0 32
    let amount1 := beSlice log.data 32 32
    let sender := ((log.topics.get? 1).map addrOfTopic).getD 0
    let recipient := ((log.topics.get? 2).map addrOfTopic).getD 0
    (.ok { amount0, amount1, price, sender, recipient }, p')

/-- `UniswapV3::get_current_price`. -/
def UniswapV3.get_current_price (p : UniswapV3) : ℚ :=
  p.calculate_price p.sqrt_price_x96

/-- `UniswapV3::apply_initial_state`: reads `sqrtPriceX96` from the first 32
bytes of the `slot0()` result, silently no-ops when shorter. -/
def UniswapV3.apply_initial_state (p : UniswapV3) (result : List Nat) : UniswapV3 :=
  if 32 ≤ result.length then { p with sqrt_price_x96 := beSlice result 0 32 } else p

/-- `UniswapV3::get_event_signatures`: the single recognized V3 `Swap` hash. -/
def UniswapV3.get_event_signatures (_ : UniswapV3) : List Nat := [swapTopicV3]

/-- The `UniswapV2` pool codec state. -/
structure UniswapV2 where
  address : Nat
  token0_decimals : Nat
  token1_decimals : Nat
  reserve0 : Nat
  reserve1 : Nat
  deriving DecidableEq

/-- `UniswapV2::new`. -/
def UniswapV2.new (address token0_decimals token1_decimals : Nat) : UniswapV2 :=
  { address, token0_decimals, token1_decimals, reserve0 := 0, reserve1 := 0 }

/-- `UniswapV2::calculate_price`: `0.0` when `reserve0` is zero, otherwise
`reserve1/reserve0` scaled by the decimal adjustment.  Exact over `ℚ`. -/
def UniswapV2.calculate_price (p : UniswapV2) (reserve0 reserve1 : Nat) : ℚ :=
  if reserve0 = 0 then 0
  else ((reserve1 : ℚ) / (reserve0 : ℚ)) * decimalAdjustment p.token0_decimals p.token1_decimals

/-- `UniswapV2::parse_swap_event_data`: dispatches on the first topic.  A
`Sync` log (≥ 64 payload bytes) replaces both reserves and prices from the
new reserves; a `Swap` log leaves the reserves unchanged and prices from the
stored reserves, defaulting out-of-range amount slices to zero; any other
topic is rejected.  All error paths return the input state unchanged. -/
def UniswapV2.parse_swap_event_data (p : UniswapV2) (log : EthereumLog) :
    Except DecodeError SwapEventData × UniswapV2 :=
  match log.topics.head? with
  | none => (.error .noTopics, p)
  | some t0 =>
    if t0 = syncTopicV2 then
      if log.data.length < 64 then
        (.error .malformedLog, p)
      else
        let p' := { p with reserve0 := beSlice log.data 0 32,
                           reserve1 := beSlice log.data 32 32 }
        let price := p'.calculate_price p'.reserve0 p'.reserve1
        let sender := ((log.topics.get? 1).map addrOfTopic).getD 0
        (.ok { amount0 := 0, amount1 := 0, price, sender, recipient := 0 }, p')
    else if t0 = swapTopicV2 then
      let price := p.calculate_price p.reserve0 p.reserve1
      let amount0 := if 32 ≤ log.data.length then beSlice log.data 0 32 else 0
      let amount1 := if 64 ≤ log.data.length then beSlice log.data 32 32 else 0
      let sender := ((log.topics.get? 1).map addrOfTopic).getD 0
      (.ok { amount0, amount1, price, sender, recipient := 0 }, p)
    else
      (.error .unknownEvent, p)

/-- `UniswapV2::get_current_price`. -/
def UniswapV2.get_current_price (p : UniswapV2) : ℚ :=
  p.calculate_price p.reserve0 p.reserve1

/-- `UniswapV2::apply_initial_state`: reads both reserves from the first 64
bytes of the `getReserves()` result, silently no-ops when shorter. -/
def UniswapV2.apply_initial_state (p : UniswapV2) (result : List Nat) : UniswapV2 :=
  if 64 ≤ result.length then
    { p with reserve0 := beSlice result 0 32, reserve1 := beSlice result 32 32 }
  else p

/-- `UniswapV2::get_event_signatures`: the recognized V2 `Swap` and `Sync`
hashes. -/
def UniswapV2.get_event_signatures (_ : UniswapV2) : List Nat :=
  [swapTopicV2, syncTopicV2]

/-- A `Box<dyn BaseLiquidityPool>` as stored in `ScannerState.liquidity_pools`:
one of the two codec variants. -/
inductive PoolCodec where
  | v2 : UniswapV2 → PoolCodec
  | v3 : UniswapV3 → PoolCodec
  deriving DecidableEq

/-- Dynamic dispatch of `parse_swap_event_data` over the codec variant. -/
def PoolCodec.parse_swap_event_data (c : PoolCodec) (log : EthereumLog) :
    Except DecodeError SwapEventData × PoolCodec :=
  match c with
  | .v2 p => let r := p.parse_swap_event_data log; (r.1, .v2 r.2)
  | .v3 p => let r := p.parse_swap_event_data log; (r.1, .v3 r.2)

/-- Dynamic dispatch of `get_current_price` over the codec variant. -/
def PoolCodec.get_current_price : PoolCodec → ℚ
  | .v2 p => p.get_current_price
  | .v3 p => p.get_current_price

/-- Models IEEE-754 double division `1.0 / x` as performed when building
`PoolPrice` in `handle_log_event`: a finite quotient is represented exactly
as a rational, while division by zero yields a non-finite double (`+inf`),
represented as `none`.  There is no zero guard in the Rust code; the guard
question is exactly whether the result is finite. -/
def ieeeRecip (x : ℚ) : Option ℚ :=
  if x = 0 then none else some (1 / x)

/-- `PoolPrice` from `src/types.rs`; `token1_price` keeps the finite/non-finite
distinction of the `f64` it models. -/
structure PoolPrice where
  pool_address : Nat
  token0_price : ℚ
  token1_price : Option ℚ
  timestamp : Nat
  deriving DecidableEq

/-- `CachedPool` from `src/types.rs`, restricted to the fields the processing
loop consumes (the descriptive metadata — symbols, fee, liquidity — plays no
role in any claim). -/
structure CachedPool where
  address : Nat
  token0_decimals : Nat
  token1_decimals : Nat
  deriving DecidableEq

/-- The price cache `current_prices: HashMap<Address, PoolPrice>`, modelled as
a total function to optional entries. -/
def PriceCache : Type := Nat → Option PoolPrice

/-- `guard.current_prices.insert(pool_address, new_price)`: inserts the new
entry and returns the previously stored entry for that address (`None` on
first observation). -/
def PriceCache.swap (m : PriceCache) (address : Nat) (new_entry : PoolPrice) :
    PriceCache × Option PoolPrice :=
  (fun a => if a = address then some new_entry else m a, m address)

/-- The arguments `handle_log_event` passes to the `on_price_change` callback. -/
structure Notification where
  pool : CachedPool
  new_price : PoolPrice
  old_price : Option PoolPrice
  deriving DecidableEq

/-- The per-record failures of `handle_log_event`: no codec registered for the
address, decode failure, or no cached pool metadata for the address. -/
inductive HandleError where
  | noLiquidityPool
  | decodeFailed : DecodeError → HandleError
  | noCachedPool
  deriving DecidableEq

/-- `ScannerState` from `src/rpc/mod.rs`: pool metadata list, codec per
address, and the price cache.  The callback itself is modelled by returning
the `Notification` it would receive. -/
structure ScannerState where
  pools : List CachedPool
  liquidity_pools : Nat → Option PoolCodec
  current_prices : PriceCache

/-- `handle_log_event` from `src/rpc/mod.rs`: look up the codec for the
emitting address, decode (mutating the codec in place), look up the pool
metadata, build the new `PoolPrice` (with the unguarded `1.0 / price`
reciprocal), swap it into the price cache, and return the callback
arguments.  `now` stands for the wall-clock timestamp. -/
def handle_log_event (st : ScannerState) (log : EthereumLog) (now : Nat) :
    Except HandleError Notification × ScannerState :=
  let pool_address := log.address
  match st.liquidity_pools pool_address with
  | none => (.error .noLiquidityPool, st)
  | some lp =>
    let r := lp.parse_swap_event_data log
    let st' := { st with liquidity_pools :=
      fun a => if a = pool_address then some r.2 else st.liquidity_pools a }
    match r.1 with
    | .error e => (.error (.decodeFailed e), st')
    | .ok swap_data =>
      match st'.pools.find? (fun q => q.address == pool_address) with
      | none => (.error .noCachedPool, st')
      | some cached_pool =>
        let new_price : PoolPrice :=
          { pool_address, token0_price := swap_data.price,
            token1_price := ieeeRecip swap_data.price, timestamp := now }
        let sw := PriceCache.swap st'.current_prices pool_address new_price
        (.ok { pool := cached_pool, new_price, old_price := sw.2 },
         { st' with current_prices := sw.1 })

/-- Spec formula (§4.1/§8): constant-product price `reserve1/reserve0`
adjusted by `10^(d0 - d1)`. -/
def specConstantProductPrice (d0 d1 r0 r1 : Nat) : ℚ :=
  ((r1 : ℚ) / (r0 : ℚ)) * (10 : ℚ) ^ ((d0 : ℤ) - (d1 : ℤ))

/-- Spec formula (§4.1/§8): concentrated-liquidity price `(sqrtPrice/2^96)^2`
adjusted by `10^(d0 - d1)`. -/
def specConcentratedPrice (d0 d1 s : Nat) : ℚ :=
  ((s : ℚ) / (2 : ℚ) ^ (96 : ℕ)) ^ 2 * (10 : ℚ) ^ ((d0 : ℤ) - (d1 : ℤ))

/-! Concrete fixtures used by counterexamples and witnesses. -/

/-- A concentrated-liquidity codec with a nonzero stored square-root price. -/
def v3Pool5 : UniswapV3 :=
  { address := 3, token0_decimals := 0, token1_decimals := 0, sqrt_price_x96 := 5 }

/-- A log whose first topic (0) is not a recognized V3 signature but whose
payload is 160 zero bytes. -/
def logTopic0Data160 : EthereumLog :=
  { address := 3, topics := [0], data := List.replicate 160 0 }

/-- A log carrying the V3 `Swap` signature but only a 1-byte payload. -/
def logV3Short : EthereumLog :=
  { address := 3, topics := [swapTopicV3], data := [0] }

/-- A constant-product codec with reserves (1, 2). -/
def v2Pool12 : UniswapV2 :=
  { address := 0, token0_decimals := 0, token1_decimals := 0, reserve0 := 1, reserve1 := 2 }

/-- A V2 `Swap`-signature log with an empty data payload. -/
def logV2SwapEmpty : EthereumLog :=
  { address := 0, topics := [swapTopicV2], data := [] }

/-- A V2 `Sync`-signature log with an empty data payload. -/
def logV2SyncEmpty : EthereumLog :=
  { address := 0, topics := [syncTopicV2], data := [] }

/-- A V2 `Sync`-signature log whose 64-byte payload sets the reserves to
(1, 2): byte 31 is 1 and byte 63 is 2. -/
def logV2Sync12 : EthereumLog :=
  { address := 0, topics := [syncTopicV2],
    data := List.replicate 31 0 ++ [1] ++ List.replicate 31 0 ++ [2] }

/-- A constant-product codec registered at address 7 with both reserves zero,
so that its current price is 0. -/
def v2PoolZero : UniswapV2 :=
  { address := 7, token0_decimals := 18, token1_decimals := 6, reserve0 := 0, reserve1 := 0 }

/-- Scanner state tracking the single zero-reserve pool at address 7, with an
empty price cache. -/
def scanStateZero : ScannerState :=
  { pools := [{ address := 7, token0_decimals := 18, token1_decimals := 6 }],
    liquidity_pools := fun a => if a = 7 then some (.v2 v2PoolZero) else none,
    current_prices := fun _ => none }

/-- A V2 `Swap`-signature log emitted by address 7 with an empty payload. -/
def logSwap7 : EthereumLog :=
  { address := 7, topics := [swapTopicV2], data := [] }

/-- Scanner state tracking a concentrated-liquidity pool at address 9. -/
def scanStateV3 : ScannerState :=
  { pools := [{ address := 9, token0_decimals := 0, token1_decimals := 0 }],
    liquidity_pools :=
      fun a => if a = 9 then
        some (.v3 { address := 9, token0_decimals := 0, token1_decimals := 0,
                    sqrt_price_x96 := 5 })
      else none,
    current_prices := fun _ => none }

/-- A V3 `Swap`-signature log emitted by address 9 with a too-short payload. -/
def logShort9 : EthereumLog :=
  { address := 9, topics := [swapTopicV3], data := [0] }

/-- The notification produced for `logSwap7` against `scanStateZero`: a zero
price whose reciprocal is the non-finite result of `1.0 / 0.0`. -/
def notifZero : Notification :=
  { pool := { address := 7, token0_decimals := 18, token1_decimals := 6 },
    new_price := { pool_address := 7, token0_price := 0, token1_price := none,
                   timestamp := 1000 },
    old_price := none }

/-- The scanner state after processing `logSwap7` from `scanStateZero`. -/
def stateZeroAfter : ScannerState := (handle_log_event scanStateZero logSwap7 1000).2

/-- A log whose only topic (0) matches no recognized signature. -/
def logTopic0Empty : EthereumLog := { address := 0, topics := [0], data := [] }

/-- A constant-product codec with zero decimals and zero reserves. -/
def v2PoolStart : UniswapV2 :=
  { address := 0, token0_decimals := 0, token1_decimals := 0, reserve0 := 0, reserve1 := 0 }

/-- The empty price cache (no pool observed yet). -/
def emptyCache : PriceCache := fun _ => none

/-- A sample cache entry used to exercise `PriceCache.swap`. -/
def samplePrice1 : PoolPrice :=
  { pool_address := 1, token0_price := 1, token1_price := some 1, timestamp := 10 }

/-- A second, distinct sample cache entry. -/
def samplePrice2 : PoolPrice :=
  { pool_address := 2, token0_price := 2, token1_price := some (1 / 2), timestamp := 20 }

/-! Branch equation lemmas: how each decode/processing path evaluates. -/

theorem v3_parse_short (p : UniswapV3) (log : EthereumLog) (h : log.data.length < 160) :
    p.parse_swap_event_data log = (.error .malformedLog, p) := by
  simp [UniswapV3.parse_swap_event_data, h]

theorem v3_parse_ok (p : UniswapV3) (log : EthereumLog) (h : ¬ log.data.length < 160) :
    p.parse_swap_event_data log =
      (.ok { amount0 := beSlice log.data 0 32, amount1 := beSlice log.data 32 32,
             price := UniswapV3.calculate_price
               { p with sqrt_price_x96 := beSlice log.data 64 32 } (beSlice log.data 64 32),
             sender := ((log.topics.get? 1).map addrOfTopic).getD 0,
             recipient := ((log.topics.get? 2).map addrOfTopic).getD 0 },
       { p with sqrt_price_x96 := beSlice log.data 64 32 }) := by
  simp [UniswapV3.parse_swap_event_data, h]

theorem v2_parse_noTopics (p : UniswapV2) (log : EthereumLog) (h : log.topics.head? = none) :
    p.parse_swap_event_data log = (.error .noTopics, p) := by
  unfold UniswapV2.parse_swap_event_data
  rw [h]

theorem v2_parse_sync_short (p : UniswapV2) (log : EthereumLog)
    (h : log.topics.head? = some syncTopicV2) (hl : log.data.length < 64) :
    p.parse_swap_event_data log = (.error .malformedLog, p) := by
  unfold UniswapV2.parse_swap_event_data
  rw [h]
  simp [hl]

theorem v2_parse_sync_ok (p : UniswapV2) (log : EthereumLog)
    (h : log.topics.head? = some syncTopicV2) (hl : ¬ log.data.length < 64) :
    p.parse_swap_event_data log =
      (.ok { amount0 := 0, amount1 := 0,
             price := UniswapV2.calculate_price
               { p with reserve0 := beSlice log.data 0 32, reserve1 := beSlice log.data 32 32 }
               (beSlice log.data 0 32) (beSlice log.data 32 32),
             sender := ((log.topics.get? 1).map addrOfTopic).getD 0,
             recipient := 0 },
       { p with reserve0 := beSlice log.data 0 32, reserve1 := beSlice log.data 32 32 }) := by
  unfold UniswapV2.parse_swap_event_data
  rw [h]
  simp [hl]

theorem v2_parse_swap (p : UniswapV2) (log : EthereumLog)
    (h : log.topics.head? = some swapTopicV2) :
    p.parse_swap_event_data log =
      (.ok { amount0 := if 32 ≤ log.data.length then beSlice log.data 0 32 else 0,
             amount1 := if 64 ≤ log.data.length then beSlice log.data 32 32 else 0,
             price := p.calculate_price p.reserve0 p.reserve1,
             sender := ((log.topics.get? 1).map addrOfTopic).getD 0,
             recipient := 0 }, p) := by
  unfold UniswapV2.parse_swap_event_data
  rw [h]
  have hne : swapTopicV2 ≠ syncTopicV2 := by decide
  simp [hne]

theorem v2_parse_unknown (p : UniswapV2) (log : EthereumLog) (t0 : Nat)
    (h : log.topics.head? = some t0) (h1 : t0 ≠ syncTopicV2) (h2 : t0 ≠ swapTopicV2) :
    p.parse_swap_event_data log = (.error .unknownEvent, p) := by
  unfold UniswapV2.parse_swap_event_data
  rw [h]
  simp [h1, h2]

theorem poolCodec_parse_v2 (p : UniswapV2) (log : EthereumLog) :
    (PoolCodec.v2 p).parse_swap_event_data log =
      ((p.parse_swap_event_data log).1, .v2 (p.parse_swap_event_data log).2) := rfl

theorem poolCodec_parse_v3 (p : UniswapV3) (log : EthereumLog) :
    (PoolCodec.v3 p).parse_swap_event_data log =
      ((p.parse_swap_event_data log).1, .v3 (p.parse_swap_event_data log).2) := rfl

theorem parse_error_frame (c : PoolCodec) (log : EthereumLog) (e : DecodeError)
    (h : (c.parse_swap_event_data log).1 = .error e) :
    (c.parse_swap_event_data log).2 = c := by
  cases c with
  | v3 p =>
    rw [poolCodec_parse_v3] at h ⊢
    by_cases hlen : log.data.length < 160
    · simp [v3_parse_short p log hlen]
    · rw [v3_parse_ok p log hlen] at h
      simp at h
  | v2 p =>
    rw [poolCodec_parse_v2] at h ⊢
    cases hh : log.topics.head? with
    | none => simp [v2_parse_noTopics p log hh]
    | some t0 =>
      by_cases hs : t0 = syncTopicV2
      · subst hs
        by_cases hl : log.data.length < 64
        · simp [v2_parse_sync_short p log hh hl]
        · rw [v2_parse_sync_ok p log hh hl] at h
          simp at h
      · by_cases hw : t0 = swapTopicV2
        · subst hw
          rw [v2_parse_swap p log hh] at h
          simp at h
        · simp [v2_parse_unknown p log t0 hh hs hw]

theorem handle_no_pool (st : ScannerState) (log : EthereumLog) (now : Nat)
    (h : st.liquidity_pools log.address = none) :
    handle_log_event st log now = (.error .noLiquidityPool, st) := by
  unfold handle_log_event
  dsimp only
  rw [h]

theorem handle_decode_error (st : ScannerState) (log : EthereumLog) (now : Nat)
    (lp : PoolCodec) (e : DecodeError)
    (hlp : st.liquidity_pools log.address = some lp)
    (he : (lp.parse_swap_event_data log).1 = .error e) :
    handle_log_event st log now =
      (.error (.decodeFailed e),
       { st with liquidity_pools :=
           fun a => if a = log.address then some (lp.parse_swap_event_data log).2
                    else st.liquidity_pools a }) := by
  unfold handle_log_event
  dsimp only
  rw [hlp]
  simp only [he]

theorem handle_no_cached (st : ScannerState) (log : EthereumLog) (now : Nat)
    (lp : PoolCodec) (d : SwapEventData) (lp' : PoolCodec)
    (hlp : st.liquidity_pools log.address = some lp)
    (hd : lp.parse_swap_event_data log = (.ok d, lp'))
    (hc : st.pools.find? (fun q => q.address == log.address) = none) :
    handle_log_event st log now =
      (.error .noCachedPool,
       { st with liquidity_pools :=
           fun a => if a = log.address then some lp' else st.liquidity_pools a }) := by
  unfold handle_log_event
  dsimp only
  rw [hlp]
  simp only [hd, hc]

theorem handle_ok (st : ScannerState) (log : EthereumLog) (now : Nat)
    (lp : PoolCodec) (d : SwapEventData) (lp' : PoolCodec) (cached : CachedPool)
    (hlp : st.liquidity_pools log.address = some lp)
    (hd : lp.parse_swap_event_data log = (.ok d, lp'))
    (hc : st.pools.find? (fun q => q.address == log.address) = some cached) :
    handle_log_event st log now =
      (.ok { pool := cached,
             new_price := { pool_address := log.address, token0_price := d.price,
                            token1_price := ieeeRecip d.price, timestamp := now },
             old_price := st.current_prices log.address },
       { pools := st.pools,
         liquidity_pools := fun a => if a = log.address then some lp' else st.liquidity_pools a,
         current_prices := fun a =>
           if a = log.address then
             some { pool_address := log.address, token0_price := d.price,
                    token1_price := ieeeRecip d.price, timestamp := now }
           else st.current_prices a }) := by
  unfold handle_log_event
  dsimp only
  rw [hlp]
  simp only [hd, hc, PriceCache.swap]

/-- C1 (counterexample): processing a constant-product swap log against a
tracked pool with zero reserves yields a cache entry whose `token0_price`
is 0 but whose `token1_price` is the non-finite result of the unguarded
division `1.0 / 0.0` (modelled as `none`), so the entry is not
zero-guarded as the claim requires. -/
theorem c1_counterexample :
    (handle_log_event scanStateZero logSwap7 1000).1 =
      .ok { pool := { address := 7, token0_decimals := 18, token1_decimals := 6 },
            new_price := { pool_address := 7, token0_price := 0,
                           token1_price := none, timestamp := 1000 },
            old_price := none } := by
  norm_num [handle_log_event, scanStateZero, logSwap7, v2PoolZero,
    PoolCodec.parse_swap_event_data, UniswapV2.parse_swap_event_data,
    UniswapV2.calculate_price, swapTopicV2, syncTopicV2, ieeeRecip,
    PriceCache.swap, List.find?]

/-- C1 (amended): every price entry produced by record processing has
`token1_price` equal to the IEEE reciprocal of `token0_price`: it equals
`1/token0_price` whenever `token0_price > 0`, and it is the non-finite
result of the unguarded division by zero whenever `token0_price = 0`. -/
theorem c1_amended_reciprocal (st : ScannerState) (log : EthereumLog) (now : Nat)
    (n : Notification) (st' : ScannerState)
    (h : handle_log_event st log now = (.ok n, st')) :
    (0 < n.new_price.token0_price →
      n.new_price.token1_price = some (1 / n.new_price.token0_price)) ∧
    (n.new_price.token0_price = 0 → n.new_price.token1_price = none) := by
  cases hlp : st.liquidity_pools log.address with
  | none =>
    rw [handle_no_pool st log now hlp] at h
    simp at h
  | some lp =>
    cases hr1 : (lp.parse_swap_event_data log).1 with
    | error e =>
      rw [handle_decode_error st log now lp e hlp hr1] at h
      simp at h
    | ok d =>
      have hr : lp.parse_swap_event_data log = (.ok d, (lp.parse_swap_event_data log).2) := by
        rw [← hr1]
      cases hc : st.pools.find? (fun q => q.address == log.address) with
      | none =>
        rw [handle_no_cached st log now lp d _ hlp hr hc] at h
        simp at h
      | some cached =>
        rw [handle_ok st log now lp d _ cached hlp hr hc] at h
        simp only [Prod.mk.injEq, Except.ok.injEq] at h
        obtain ⟨hn, -⟩ := h
        subst hn
        constructor
        · intro hpos
          simp only [ieeeRecip]
          rw [if_neg]
          intro hz
          simp only [hz] at hpos
          exact lt_irrefl 0 hpos
        · intro hzero
          simp only at hzero
          simp only [ieeeRecip, hzero]
          simp

/-- C1 (witness): the amended reciprocal relation instantiated at the
concrete zero-reserve scenario. -/
theorem c1_witness :
    (0 < notifZero.new_price.token0_price →
      notifZero.new_price.token1_price = some (1 / notifZero.new_price.token0_price)) ∧
    (notifZero.new_price.token0_price = 0 → notifZero.new_price.token1_price = none) :=
  c1_amended_reciprocal scanStateZero logSwap7 1000 notifZero stateZeroAfter (by
    apply Prod.ext
    · norm_num [handle_log_event, scanStateZero, logSwap7, v2PoolZero, notifZero,
        PoolCodec.parse_swap_event_data, UniswapV2.parse_swap_event_data,
        UniswapV2.calculate_price, swapTopicV2, syncTopicV2, ieeeRecip,
        PriceCache.swap, List.find?]
    · rfl)

/-- C2 (counterexample): the concentrated-liquidity codec accepts a log whose
first topic (0) is none of its recognized signatures: decoding succeeds and
the stored square-root price changes from 5 to 0, refuting both the
`UnknownEvent` failure and the no-mutation requirement. -/
theorem c2_counterexample :
    logTopic0Data160.topics.head? = some 0 ∧
    0 ∉ v3Pool5.get_event_signatures ∧
    UniswapV3.parse_swap_event_data v3Pool5 logTopic0Data160 =
      (.ok { amount0 := 0, amount1 := 0, price := 0, sender := 0, recipient := 0 },
       { v3Pool5 with sqrt_price_x96 := 0 }) ∧
    ({ v3Pool5 with sqrt_price_x96 := 0 } : UniswapV3) ≠ v3Pool5 := by
  refine ⟨rfl, by decide, ?_, by decide⟩
  norm_num [UniswapV3.parse_swap_event_data, UniswapV3.calculate_price, beSlice,
    List.replicate, addrOfTopic, logTopic0Data160, v3Pool5]

/-- C2 (amended): for the constant-product codec, a log whose first topic is
not one of the recognized signatures fails with `UnknownEvent` and leaves
the reserves unchanged.  (The concentrated-liquidity codec does not inspect
the signature at all, per the counterexample.) -/
theorem c2_amended_v2_unknown (p : UniswapV2) (log : EthereumLog) (t0 : Nat)
    (h : log.topics.head? = some t0)
    (hn : t0 ∉ p.get_event_signatures) :
    p.parse_swap_event_data log = (.error .unknownEvent, p) := by
  have h1 : t0 ≠ syncTopicV2 := by
    intro he
    exact hn (by simp [UniswapV2.get_event_signatures, he])
  have h2 : t0 ≠ swapTopicV2 := by
    intro he
    exact hn (by simp [UniswapV2.get_event_signatures, he])
  exact v2_parse_unknown p log t0 h h1 h2

/-- C2 (witness): the amended statement at a concrete unrecognized topic. -/
theorem c2_witness :
    UniswapV2.parse_swap_event_data v2Pool12 logTopic0Empty =
      (.error .unknownEvent, v2Pool12) :=
  c2_amended_v2_unknown v2Pool12 logTopic0Empty 0 rfl (by decide)

/-- C3 (counterexample): a constant-product `Swap`-signature log with an empty
payload (shorter than the 128 bytes the claim requires) decodes
successfully — the missing amount words default to zero — instead of
failing with `MalformedLog`. -/
theorem c3_counterexample :
    logV2SwapEmpty.topics.head? = some swapTopicV2 ∧
    logV2SwapEmpty.data.length < 128 ∧
    UniswapV2.parse_swap_event_data v2Pool12 logV2SwapEmpty =
      (.ok { amount0 := 0, amount1 := 0, price := 2, sender := 0, recipient := 0 },
       v2Pool12) := by
  refine ⟨rfl, by decide, ?_⟩
  norm_num [UniswapV2.parse_swap_event_data, UniswapV2.calculate_price, decimalAdjustment,
    swapTopicV2, syncTopicV2, logV2SwapEmpty, v2Pool12]

/-- C3 (amended): the short-payload rule holds for the two events that carry
state: a concentrated-liquidity log with fewer than 160 payload bytes, and a
constant-product `Sync` log with fewer than 64, fail with `MalformedLog` and
leave the codec state unchanged.  (The constant-product `Swap` event has no
length requirement, per the counterexample.) -/
theorem c3_amended_short_payload :
    (∀ (p : UniswapV3) (log : EthereumLog), log.data.length < 160 →
      p.parse_swap_event_data log = (.error .malformedLog, p)) ∧
    (∀ (p : UniswapV2) (log : EthereumLog),
      log.topics.head? = some syncTopicV2 → log.data.length < 64 →
      p.parse_swap_event_data log = (.error .malformedLog, p)) :=
  ⟨v3_parse_short, v2_parse_sync_short⟩

/-- C3 (witness): both short-payload failures at concrete logs. -/
theorem c3_witness :
    UniswapV3.parse_swap_event_data v3Pool5 logV3Short = (.error .malformedLog, v3Pool5) ∧
    UniswapV2.parse_swap_event_data v2Pool12 logV2SyncEmpty =
      (.error .malformedLog, v2Pool12) :=
  ⟨c3_amended_short_payload.1 v3Pool5 logV3Short (by decide),
   c3_amended_short_payload.2 v2Pool12 logV2SyncEmpty rfl (by decide)⟩

/-- C4: a constant-product `Swap` log is priced from the codec's stored
(last-synced) reserves and leaves the reserves unchanged; after a `Sync` log
has installed new reserves, an immediately following `Swap` log yields the
price computed from those synced reserves (the swap amounts play no role). -/
theorem c4_swap_priced_from_synced_reserves :
    (∀ (p : UniswapV2) (log : EthereumLog),
      log.topics.head? = some swapTopicV2 →
      ∃ d, p.parse_swap_event_data log = (.ok d, p) ∧
        d.price = p.calculate_price p.reserve0 p.reserve1) ∧
    (∀ (p p' : UniswapV2) (ds : SwapEventData) (ls lw : EthereumLog),
      ls.topics.head? = some syncTopicV2 →
      p.parse_swap_event_data ls = (.ok ds, p') →
      lw.topics.head? = some swapTopicV2 →
      p'.reserve0 = beSlice ls.data 0 32 ∧
      p'.reserve1 = beSlice ls.data 32 32 ∧
      ∃ dw, p'.parse_swap_event_data lw = (.ok dw, p') ∧
        dw.price = p'.calculate_price p'.reserve0 p'.reserve1) := by
  constructor
  · intro p log h
    rw [v2_parse_swap p log h]
    exact ⟨_, rfl, rfl⟩
  · intro p p' ds ls lw hs hd hw
    by_cases hl : ls.data.length < 64
    · rw [v2_parse_sync_short p ls hs hl] at hd
      simp at hd
    · rw [v2_parse_sync_ok p ls hs hl] at hd
      simp only [Prod.mk.injEq, Except.ok.injEq] at hd
      obtain ⟨-, hp⟩ := hd
      subst hp
      refine ⟨rfl, rfl, ?_⟩
      rw [v2_parse_swap _ lw hw]
      exact ⟨_, rfl, rfl⟩

/-- C4 (witness): sync-to-reserves (1, 2) then swap yields price 2 from the
synced reserves, at concrete logs. -/
theorem c4_witness :
    v2Pool12.reserve0 = beSlice logV2Sync12.data 0 32 ∧
    v2Pool12.reserve1 = beSlice logV2Sync12.data 32 32 ∧
    ∃ dw, v2Pool12.parse_swap_event_data logV2SwapEmpty = (.ok dw, v2Pool12) ∧
      dw.price = v2Pool12.calculate_price v2Pool12.reserve0 v2Pool12.reserve1 :=
  c4_swap_priced_from_synced_reserves.2 v2PoolStart v2Pool12
    { amount0 := 0, amount1 := 0, price := 2, sender := 0, recipient := 0 }
    logV2Sync12 logV2SwapEmpty rfl
    (by norm_num [UniswapV2.parse_swap_event_data, UniswapV2.calculate_price,
      decimalAdjustment, beSlice, List.replicate, swapTopicV2, syncTopicV2,
      logV2Sync12, v2PoolStart, v2Pool12])
    rfl

/-- C5: the constant-product current price equals `(reserve1/reserve0) *
10^(d0-d1)` whenever `reserve0 > 0`, equals exactly 0 when `reserve0 = 0`,
and the (18, 6)-decimals scenario with reserves `10^18` and `2000*10^6`
prices at 2000. -/
theorem c5_constant_product_current_price (a d0 d1 r0 r1 : Nat) :
    (0 < r0 →
      (UniswapV2.mk a d0 d1 r0 r1).get_current_price = specConstantProductPrice d0 d1 r0 r1) ∧
    ((UniswapV2.mk a d0 d1 0 r1).get_current_price = 0) ∧
    ((UniswapV2.mk a 18 6 (10 ^ 18) (2000 * 10 ^ 6)).get_current_price = 2000) := by
  refine ⟨fun hr0 => ?_, ?_, ?_⟩
  · simp [UniswapV2.get_current_price, UniswapV2.calculate_price, specConstantProductPrice,
      decimalAdjustment, hr0.ne']
  · simp [UniswapV2.get_current_price, UniswapV2.calculate_price]
  · norm_num [UniswapV2.get_current_price, UniswapV2.calculate_price, decimalAdjustment]

/-- C5 (witness): the positive-reserve formula at reserves (1, 2). -/
theorem c5_witness :
    (UniswapV2.mk 0 0 0 1 2).get_current_price = specConstantProductPrice 0 0 1 2 :=
  (c5_constant_product_current_price 0 0 0 1 2).1 (by decide)

/-- C6: the concentrated-liquidity current price equals
`(sqrtPrice/2^96)^2 * 10^(d0-d1)` (exactly, in the rational model of the
floating-point computation). -/
theorem c6_concentrated_current_price (a d0 d1 s : Nat) :
    (UniswapV3.mk a d0 d1 s).get_current_price = specConcentratedPrice d0 d1 s := by
  simp only [UniswapV3.get_current_price, UniswapV3.calculate_price, specConcentratedPrice,
    decimalAdjustment, q96]
  push_cast
  ring

/-- C7: the price cache swap returns exactly the entry previously stored under
the given address — `none` on first observation, the first entry on the
second swap for the same address — and an entry stored under a different
address is never returned. -/
theorem c7_price_cache_swap (m : PriceCache) (a b : Nat) (e e' : PoolPrice)
    (hab : a ≠ b) :
    ((m.swap a e).2 = m a) ∧
    ((m.swap a e).1 a = some e) ∧
    ((emptyCache.swap a e).2 = none) ∧
    (((emptyCache.swap a e).1.swap a e').2 = some e) ∧
    (((emptyCache.swap b e').1.swap a e).2 = none) := by
  refine ⟨rfl, ?_, rfl, ?_, ?_⟩
  · simp [PriceCache.swap]
  · simp [PriceCache.swap]
  · simp [PriceCache.swap, emptyCache, hab]

/-- C7 (witness): the cache-swap properties at concrete addresses 1 ≠ 2. -/
theorem c7_witness :
    ((emptyCache.swap 1 samplePrice1).2 = emptyCache 1) ∧
    ((emptyCache.swap 1 samplePrice1).1 1 = some samplePrice1) ∧
    ((emptyCache.swap 1 samplePrice1).2 = none) ∧
    (((emptyCache.swap 1 samplePrice1).1.swap 1 samplePrice2).2 = some samplePrice1) ∧
    (((emptyCache.swap 2 samplePrice2).1.swap 1 samplePrice1).2 = none) :=
  c7_price_cache_swap emptyCache 1 2 samplePrice1 samplePrice2 (by decide)

/-- C8: when decode fails for the tracked pool emitting the log, processing
returns the decode error (so the callback is not invoked), every pool's
cached price is unchanged, and every pool's codec state — including the
failing pool's — is unchanged. -/
theorem c8_decode_failure_frame (st : ScannerState) (log : EthereumLog) (now a : Nat)
    (lp : PoolCodec) (e : DecodeError)
    (hlp : st.liquidity_pools log.address = some lp)
    (he : (lp.parse_swap_event_data log).1 = .error e) :
    ((handle_log_event st log now).1 = .error (.decodeFailed e)) ∧
    ((handle_log_event st log now).2.current_prices a = st.current_prices a) ∧
    ((handle_log_event st log now).2.liquidity_pools a = st.liquidity_pools a) := by
  rw [handle_decode_error st log now lp e hlp he]
  refine ⟨rfl, rfl, ?_⟩
  by_cases ha : a = log.address
  · subst ha
    simp [parse_error_frame lp log e he, hlp]
  · simp [ha]

/-- C8 (witness): a malformed concentrated-liquidity log against the tracked
pool at address 9 leaves cache and codec state untouched. -/
theorem c8_witness :
    ((handle_log_event scanStateV3 logShort9 5).1 =
      .error (.decodeFailed .malformedLog)) ∧
    ((handle_log_event scanStateV3 logShort9 5).2.current_prices 9 =
      scanStateV3.current_prices 9) ∧
    ((handle_log_event scanStateV3 logShort9 5).2.liquidity_pools 9 =
      scanStateV3.liquidity_pools 9) :=
  c8_decode_failure_frame scanStateV3 logShort9 5 9
    (.v3 { address := 9, token0_decimals := 0, token1_decimals := 0, sqrt_price_x96 := 5 })
    .malformedLog rfl rfl

/-- C9: whenever decode succeeds, the price in the returned swap result equals
the codec's `current_price()` immediately after the decode. -/
theorem c9_decoded_price_is_current (c c' : PoolCodec) (log : EthereumLog)
    (d : SwapEventData)
    (h : c.parse_swap_event_data log = (.ok d, c')) :
    d.price = c'.get_current_price := by
  cases c with
  | v3 p =>
    rw [poolCodec_parse_v3] at h
    by_cases hlen : log.data.length < 160
    · rw [v3_parse_short p log hlen] at h
      simp at h
    · rw [v3_parse_ok p log hlen] at h
      simp only [Prod.mk.injEq, Except.ok.injEq] at h
      obtain ⟨hd, hc⟩ := h
      subst hd
      subst hc
      rfl
  | v2 p =>
    rw [poolCodec_parse_v2] at h
    cases hh : log.topics.head? with
    | none =>
      rw [v2_parse_noTopics p log hh] at h
      simp at h
    | some t0 =>
      by_cases hs : t0 = syncTopicV2
      · subst hs
        by_cases hl : log.data.length < 64
        · rw [v2_parse_sync_short p log hh hl] at h
          simp at h
        · rw [v2_parse_sync_ok p log hh hl] at h
          simp only [Prod.mk.injEq, Except.ok.injEq] at h
          obtain ⟨hd, hc⟩ := h
          subst hd
          subst hc
          rfl
      · by_cases hw : t0 = swapTopicV2
        · subst hw
          rw [v2_parse_swap p log hh] at h
          simp only [Prod.mk.injEq, Except.ok.injEq] at h
          obtain ⟨hd, hc⟩ := h
          subst hd
          subst hc
          rfl
        · rw [v2_parse_unknown p log t0 hh hs hw] at h
          simp at h

set_option maxRecDepth 4000 in
/-- C9 (witness): the decoded swap price (2) equals the codec's current price
after decoding, at a concrete constant-product swap. -/
theorem c9_witness :
    ({ amount0 := 0, amount1 := 0, price := 2, sender := 0, recipient := 0 }
      : SwapEventData).price = (PoolCodec.v2 v2Pool12).get_current_price :=
  c9_decoded_price_is_current (.v2 v2Pool12) (.v2 v2Pool12) logV2SwapEmpty
    { amount0 := 0, amount1 := 0, price := 2, sender := 0, recipient := 0 }
    (by norm_num [PoolCodec.parse_swap_event_data, UniswapV2.parse_swap_event_data,
      UniswapV2.calculate_price, decimalAdjustment, swapTopicV2, syncTopicV2,
      logV2SwapEmpty, v2Pool12])

/-- C10: the concentrated-liquidity codec decodes any log with a payload of at
least 160 bytes, and absent topic slots 1 and/or 2 make the returned sender
and/or recipient default to the all-zero address. -/
theorem c10_v3_defaults_missing_topics (p : UniswapV3) (log : EthereumLog)
    (h : 160 ≤ log.data.length) :
    ∃ d p', p.parse_swap_event_data log = (.ok d, p') ∧
      (log.topics[1]? = none → d.sender = 0) ∧
      (log.topics[2]? = none → d.recipient = 0) := by
  have hn : ¬ log.data.length < 160 := not_lt.mpr h
  refine ⟨_, _, v3_parse_ok p log hn, fun h1 => ?_, fun h2 => ?_⟩
  · simp [h1]
  · simp [h2]

/-- C10 (witness): a 160-byte log with a single (unindexed-style) topic
decodes with zero sender and recipient. -/
theorem c10_witness :
    ∃ d p', v3Pool5.parse_swap_event_data logTopic0Data160 = (.ok d, p') ∧
      (logTopic0Data160.topics[1]? = none → d.sender = 0) ∧
      (logTopic0Data160.topics[2]? = none → d.recipient = 0) :=
  c10_v3_defaults_missing_topics v3Pool5 logTopic0Data160
    (by simp [logTopic0Data160])
